import Mathlib

/-!
Shallow embedding of the `activitywatch` Home Assistant custom integration
(`custom_components/activitywatch/`): the API client's error taxonomy
(`api.py`), the polling coordinator with its bucket discovery and
edge-triggered window-switch event (`coordinator.py`), the read-only entity
projections (`binary_sensor.py`, `sensor.py`), and the `query_stats` service
handler (`services.py`).

Python values are modelled as follows: JSON payloads as the inductive
`JValue`; Python `float` durations as `ℚ`; `dict.get` with a default as
`Option`/lookup; `str.lower()` as `pyLower` (ASCII lowering, as in
`Char.toLower`); built-in `round` (banker's rounding, no `ndigits`) as
`pyRound`; `int()` float truncation as `pyInt`; Python exceptions as
`Except` errors.
-/

/-- Model of a JSON value as received from the ActivityWatch server. -/
inductive JValue where
  | null
  | bool (b : Bool)
  | num (q : ℚ)
  | str (s : String)
  | arr (xs : List JValue)
  | obj (fields : List (String × JValue))

/-- Model of Python `str.lower()` (character-wise ASCII lowering). -/
def pyLower (s : String) : String := ⟨s.data.map Char.toLower⟩

/-- Model of Python `needle in haystack` substring containment on char lists. -/
def listContainsSub (needle : List Char) : List Char → Bool
  | [] => needle.isEmpty
  | c :: t => needle.isPrefixOf (c :: t) || listContainsSub needle t

/-- Model of Python `needle in haystack` for strings. -/
def strContainsSub (haystack needle : String) : Bool :=
  listContainsSub needle.data haystack.data

/-- Model of Python `int(x)`: truncation toward zero (`Int.tdiv`, positive
denominator). -/
def pyInt (q : ℚ) : ℤ := q.num.tdiv q.den

/-- Model of Python `round(x)` with no `ndigits`: round half to even. -/
def pyRound (q : ℚ) : ℤ :=
  let n := ⌊q⌋
  if q - n < 1/2 then n
  else if 1/2 < q - n then n + 1
  else if n % 2 = 0 then n else n + 1

/-- The Python exceptions the `query_stats` handler can let escape: attribute
access on a non-`dict`/non-`str` value, and arithmetic on a non-number. -/
inductive PyError where
  | attributeError
  | typeError
deriving DecidableEq

/-- Model of Python `value.get(key, dflt)`: raises `AttributeError` when
`value` is not a `dict` (has no `.get`). First binding wins, as in a `dict`. -/
def pyGet (v : JValue) (key : String) (dflt : JValue) : Except PyError JValue :=
  match v with
  | .obj fields => .ok ((List.lookup key fields).getD dflt)
  | _ => .error .attributeError

/-- Model of Python `c.lower()` on a JSON value: only strings have `.lower`. -/
def lowerStr : JValue → Except PyError String
  | .str s => .ok (pyLower s)
  | _ => .error .attributeError

/-- Numeric coercion used by `total_seconds += duration` and
`round(duration)`: Python accepts `int`/`float`/`bool` and raises `TypeError`
otherwise. -/
def JValue.asNum : JValue → Option ℚ
  | .num q => some q
  | .bool b => some (if b then 1 else 0)
  | _ => none

/-! Section api.py: client error taxonomy

`ActivityWatchApiError` is the generic API error;
`ActivityWatchApiConnectionError` is its distinct subclass used for transport
failures. The two constructors model which of the two classes is raised. -/

inductive AWError where
  | apiError (msg : String)
  | connectionError (msg : String)
deriving DecidableEq

/-- What the HTTP transport produced for one request: either a response with
a status, a body text and a parsed JSON payload, or a transport failure
(`aiohttp.ClientError`: DNS failure, refusal, timeout). -/
inductive HttpOutcome where
  | response (status : ℕ) (body : String) (json : JValue)
  | transportFailure (msg : String)

/-- The message of `ActivityWatchApiConnectionError` in `_get`/`_post`. -/
def connection_error_message (base_url msg : String) : String :=
  "Cannot connect to ActivityWatch at " ++ base_url ++ ": " ++ msg

/-- The message of `ActivityWatchApiError` for a bad status in `_get`/`_post`. -/
def http_error_message (status : ℕ) (path body : String) : String :=
  "HTTP " ++ toString status ++ " from " ++ path ++ ": " ++ body

/-- Model of `ActivityWatchApiClient._get`: any status other than 200 raises
the generic API error carrying status and body; a transport failure raises
the connection error. -/
def api_get (base_url path : String) (outcome : HttpOutcome) : Except AWError JValue :=
  match outcome with
  | .transportFailure msg =>
    .error (.connectionError (connection_error_message base_url msg))
  | .response status body json =>
    if status ≠ 200 then .error (.apiError (http_error_message status path body))
    else .ok json

/-- Model of `ActivityWatchApiClient._post`: any status outside {200, 201}
raises the generic API error; a transport failure raises the connection
error. -/
def api_post (base_url path : String) (outcome : HttpOutcome) : Except AWError JValue :=
  match outcome with
  | .transportFailure msg =>
    .error (.connectionError (connection_error_message base_url msg))
  | .response status body json =>
    if status ≠ 200 ∧ status ≠ 201 then
      .error (.apiError (http_error_message status path body))
    else .ok json

/-! Section coordinator.py: events, state and the poll tick -/

/-- The `data` mapping of an ActivityWatch event. Window events carry
`app`/`title`/`url` and optionally `$category`; AFK events carry `status`.
A field modelled `none` is absent from the mapping (Python `.get` yields
`None` or the call-site default). -/
structure AWEventData where
  app : Option String
  title : Option String
  url : Option String
  category : Option (List String)
  status : Option String
deriving DecidableEq

/-- An ActivityWatch event (`{duration, data, timestamp, ...}` dict). -/
structure AWEvent where
  data : AWEventData
  duration : ℚ
  timestamp : Option String
deriving DecidableEq

/-- `ActivityWatchData`: the coordinator's per-tick snapshot container. -/
structure ActivityWatchData where
  window_event : Option AWEvent
  afk_event : Option AWEvent
deriving DecidableEq

/-- Payload fired on the event bus by `_fire_window_switch_event`. -/
structure SwitchEventData where
  device_id : String
  type : String
  app : Option String
  title : String
  url : String
deriving DecidableEq

/-- The mutable fields of `ActivityWatchCoordinator` (plus the host-cached
snapshot `data`, `None` until the first successful refresh). -/
structure CoordState where
  window_bucket : Option String
  afk_bucket : Option String
  previous_window_app : Option String
  data : Option ActivityWatchData
deriving DecidableEq

/-- `const.py` bucket type pattern for the window watcher. -/
def BUCKET_WINDOW : String := "aw-watcher-window"

/-- `const.py` bucket type pattern for the AFK watcher. -/
def BUCKET_AFK : String := "aw-watcher-afk"

/-- Model of `ActivityWatchCoordinator._fire_window_switch_event`: given the
stored `_previous_window_app` and the snapshot's window event, returns the
new `_previous_window_app` and the list of fired event payloads. -/
def fire_window_switch_event (device_name : String) (previous_window_app : Option String)
    (window_event : Option AWEvent) : Option String × List SwitchEventData :=
  match window_event with
  | none => (previous_window_app, [])
  | some ev =>
    let current_app := ev.data.app
    match previous_window_app with
    | none => (current_app, [])
    | some p =>
      if current_app ≠ some p then
        (current_app,
         [⟨device_name, "window_switch", current_app,
           ev.data.title.getD "", ev.data.url.getD ""⟩])
      else (some p, [])

/-- One half of `_async_update_data`: `if bucket: events = await get_events;
if events: data.x = events[0]`. A missing bucket silently skips the fetch. -/
def fetch_bucket_event (fetch : String → Except AWError (List AWEvent)) :
    Option String → Except AWError (Option AWEvent)
  | none => .ok none
  | some b =>
    match fetch b with
    | .error e => .error e
    | .ok events => .ok events.head?

/-- The `UpdateFailed` message built by `_async_update_data`: the connection
subclass is caught by its own `except` clause before the generic one. -/
def update_failed_message : AWError → String
  | .connectionError m => "Connection error: " ++ m
  | .apiError m => "API error: " ++ m

/-- Model of `ActivityWatchCoordinator._async_update_data`: fetch the latest
window and AFK events (errors become `UpdateFailed` before anything is
cached or fired), then run the window-switch edge detection and return the
updated coordinator state together with the fired payloads. -/
def async_update_data (device_name : String)
    (fetch : String → Except AWError (List AWEvent)) (s : CoordState) :
    Except String (CoordState × List SwitchEventData) :=
  match fetch_bucket_event fetch s.window_bucket with
  | .error err => .error (update_failed_message err)
  | .ok wev =>
    match fetch_bucket_event fetch s.afk_bucket with
    | .error err => .error (update_failed_message err)
    | .ok aev =>
      let d : ActivityWatchData := ⟨wev, aev⟩
      let fired := fire_window_switch_event device_name s.previous_window_app d.window_event
      .ok ({ s with previous_window_app := fired.1, data := some d }, fired.2)

/-- Modelled from the spec: the host `DataUpdateCoordinator` (supplied by
Home Assistant, not part of this repository) stores the value returned by
`_async_update_data` as the new snapshot on success and, when `UpdateFailed`
is raised, keeps the previous snapshot visible and retries on the next
scheduled interval. One scheduled tick therefore yields the next coordinator
state, the fired payloads and the optional `UpdateFailed` message. -/
def apply_tick (device_name : String) (fetch : String → Except AWError (List AWEvent))
    (s : CoordState) : CoordState × List SwitchEventData × Option String :=
  match async_update_data device_name fetch s with
  | .ok (s2, notifs) => (s2, notifs, none)
  | .error msg => (s, [], some msg)

/-- A sequence of scheduled ticks, each with its own transport behaviour. -/
def run_ticks (device_name : String) (s : CoordState) :
    List (String → Except AWError (List AWEvent)) → CoordState
  | [] => s
  | f :: fs => run_ticks device_name (apply_tick device_name f s).1 fs

/-- A bucket's metadata as listed by `GET /buckets/` (only the `type` field
is consulted, via `info.get("type", "")`). -/
structure BucketInfo where
  type : Option String
deriving DecidableEq

/-- Model of `ActivityWatchApiClient.async_find_buckets`: ids of the buckets
whose `type` field contains the pattern as a substring, in listing order. -/
def async_find_buckets (buckets : List (String × BucketInfo)) (bucket_type : String) :
    List String :=
  (buckets.filter (fun p => strContainsSub (p.2.type.getD "") bucket_type)).map Prod.fst

/-- Model of `ActivityWatchCoordinator.async_setup`: discover the window and
AFK buckets, keeping each id unset when no bucket matches. -/
def async_setup (buckets : List (String × BucketInfo)) (s : CoordState) : CoordState :=
  let s1 :=
    match async_find_buckets buckets BUCKET_WINDOW with
    | [] => s
    | b :: _ => { s with window_bucket := some b }
  match async_find_buckets buckets BUCKET_AFK with
  | [] => s1
  | b :: _ => { s1 with afk_bucket := some b }

/-! Section binary_sensor.py and sensor.py: entity projections -/

/-- Model of `ActivityWatchActiveBinarySensor.is_on`. -/
def active_is_on (data : Option ActivityWatchData) : Option Bool :=
  match data with
  | none => none
  | some d =>
    match d.afk_event with
    | none => none
    | some e => some (decide ((e.data.status.getD "") = "not-afk"))

/-- Model of `ActivityWatchCategoryBinarySensor.is_on` for one configured
category string. -/
def category_is_on (category : String) (data : Option ActivityWatchData) : Option Bool :=
  match data with
  | none => none
  | some d =>
    match d.window_event with
    | none => none
    | some ev =>
      let category_list := ev.data.category.getD []
      some ((category_list.map pyLower).contains (pyLower category))

/-- Model of `ActivityWatchCurrentActivitySensor.native_value`. -/
def current_activity_native_value (data : Option ActivityWatchData) : Option String :=
  match data with
  | none => none
  | some d =>
    match d.window_event with
    | none => none
    | some ev =>
      match ev.data.category with
      | some (c :: _) => some c
      | _ => some "Uncategorized"

/-- The dict returned by `ActivityWatchCurrentActivitySensor.extra_state_attributes`. -/
structure CurrentActivityAttributes where
  app_name : String
  window_title : String
  url : String
  sub_categories : List String
  duration : ℤ
deriving DecidableEq

/-- Model of `ActivityWatchCurrentActivitySensor.extra_state_attributes`. -/
def current_activity_extra_attributes (data : Option ActivityWatchData) :
    Option CurrentActivityAttributes :=
  match data with
  | none => none
  | some d =>
    match d.window_event with
    | none => none
    | some ev =>
      some ⟨ev.data.app.getD "", ev.data.title.getD "", ev.data.url.getD "",
            ev.data.category.getD [], pyInt ev.duration⟩

/-! Section services.py: the query_stats handler -/

/-- One `{name, seconds}` element of `top_apps` (`name` is whatever JSON
value the event's `data.app` field held, or the string `"Unknown"`). -/
structure TopApp where
  name : JValue
  seconds : ℤ

/-- The structured response dict of the `query_stats` service; `error` is
`none` when the `"error"` key is absent. -/
structure QueryStatsResult where
  error : Option String
  total_seconds : ℤ
  top_apps : List TopApp

/-- Python truthiness and type check guarding the handler's early return:
`not result or not isinstance(result, list) or len(result) == 0`
is false exactly for a non-empty JSON list. -/
def isNonemptyList : JValue → Bool
  | .arr (_ :: _) => true
  | _ => false

/-- The `[c.lower() for c in cat]` comprehension: lowers every entry,
raising `AttributeError` on the first non-string entry. -/
def lower_all : List JValue → Except PyError (List String)
  | [] => .ok []
  | v :: vs =>
    match lowerStr v with
    | .error e => .error e
    | .ok s =>
      match lower_all vs with
      | .error e => .error e
      | .ok ss => .ok (s :: ss)

/-- The category-filter guard of the handler's loop body: `.ok true` means
the event is skipped (`continue`). A falsy (`None` or empty) filter never
skips; a non-list `$category` value never skips. -/
def should_skip (category_filter : Option String) (dataVal : JValue) :
    Except PyError Bool :=
  match category_filter with
  | none => .ok false
  | some f =>
    if f = "" then .ok false
    else
      match pyGet dataVal "$category" (.arr []) with
      | .error e => .error e
      | .ok cat =>
        match cat with
        | .arr cs =>
          match lower_all cs with
          | .error e => .error e
          | .ok lowered => .ok (!(lowered.contains (pyLower f)))
        | _ => .ok false

/-- The `for event in events:` loop of `async_handle_query_stats`,
accumulating `total_seconds` and `top_apps` in order. -/
def process_events (category_filter : Option String) :
    List JValue → ℚ → List TopApp → Except PyError (ℚ × List TopApp)
  | [], total_seconds, top_apps => .ok (total_seconds, top_apps)
  | event :: rest, total_seconds, top_apps =>
    match pyGet event "data" (.obj []) with
    | .error e => .error e
    | .ok dataVal =>
      match pyGet dataVal "app" (.str "Unknown") with
      | .error e => .error e
      | .ok app_name =>
        match pyGet event "duration" (.num 0) with
        | .error e => .error e
        | .ok duration =>
          match should_skip category_filter dataVal with
          | .error e => .error e
          | .ok true => process_events category_filter rest total_seconds top_apps
          | .ok false =>
            match duration.asNum with
            | none => .error .typeError
            | some d =>
              process_events category_filter rest (total_seconds + d)
                (top_apps ++ [⟨app_name, pyRound d⟩])

/-- Model of `async_handle_query_stats` in `services.py`. `client_found`
models whether `_find_client_for_device` located a config entry for the
requested device; `query_result` is the outcome of `client.async_query`
(`.error` when `ActivityWatchApiError` or its connection subclass was
raised, `.ok` with the parsed JSON payload otherwise). The result is
`.error` exactly when the handler lets a Python exception escape. -/
def async_handle_query_stats (client_found : Bool) (device_id : String)
    (query_result : Except String JValue) (category_filter : Option String) :
    Except PyError QueryStatsResult :=
  if client_found = false then
    .ok ⟨some ("Device " ++ device_id ++ " not found"), 0, []⟩
  else
    match query_result with
    | .error err => .ok ⟨some err, 0, []⟩
    | .ok result =>
      match result with
      | .arr (first :: _) =>
        let events :=
          match first with
          | .arr es => es
          | _ => []
        match process_events category_filter events 0 [] with
        | .error e => .error e
        | .ok (total_seconds, top_apps) =>
          .ok ⟨none, pyRound total_seconds, top_apps.take 10⟩
      | _ => .ok ⟨none, 0, []⟩

/-! Spec-side definitions for the aggregation claim -/

/-- A well-formed merged event as described by the spec for the query
response: an object with `data.app` a string, `data.$category` a list of
strings and a numeric `duration`. -/
structure MergedEvent where
  app : String
  duration : ℚ
  category : List String

/-- JSON encoding of a well-formed merged event. -/
def MergedEvent.toJValue (e : MergedEvent) : JValue :=
  .obj [("data", .obj [("app", .str e.app),
                       ("$category", .arr (e.category.map JValue.str))]),
        ("duration", .num e.duration)]

/-- Spec-side filter decision: the event is dropped when the filter is set
(a non-empty string) and its category list lacks a case-insensitive match. -/
def skipSpec (category_filter : Option String) (e : MergedEvent) : Bool :=
  match category_filter with
  | none => false
  | some f =>
    if f = "" then false
    else !((e.category.map pyLower).contains (pyLower f))

/-- Spec-side retained events: events surviving the category filter, in
server-returned order. -/
def retained_events (category_filter : Option String) (es : List MergedEvent) :
    List MergedEvent :=
  match category_filter with
  | none => es
  | some f =>
    if f = "" then es
    else es.filter (fun e => (e.category.map pyLower).contains (pyLower f))

/-! Claims C5: API client error taxonomy -/

/-- Claim C5 (amended): a transport failure raises the distinct connection
error on both GET and POST; a response raises the generic API error carrying
the status and body exactly when the status is not 200 (GET), resp. neither
200 nor 201 (POST), and returns the parsed payload otherwise. -/
theorem api_client_error_taxonomy (base_url path body msg : String) (status : ℕ)
    (j : JValue) :
    api_get base_url path (.transportFailure msg) =
      .error (.connectionError (connection_error_message base_url msg)) ∧
    api_post base_url path (.transportFailure msg) =
      .error (.connectionError (connection_error_message base_url msg)) ∧
    api_get base_url path (.response status body j) =
      (if status = 200 then .ok j
       else .error (.apiError (http_error_message status path body))) ∧
    api_post base_url path (.response status body j) =
      (if status = 200 ∨ status = 201 then .ok j
       else .error (.apiError (http_error_message status path body))) := by
  refine ⟨rfl, rfl, ?_, ?_⟩
  · by_cases h : status = 200 <;> simp [api_get, h]
  · by_cases h1 : status = 200 <;> by_cases h2 : status = 201 <;>
      simp [api_post, h1, h2]

/-- Claim C5 counterexample: 204 is a 2xx status, yet `_get` raises the
generic API error for it, refuting "a response with a 2xx status does not
raise". -/
theorem api_client_2xx_raises_counterexample :
    (200 ≤ 204 ∧ 204 < 300) ∧
    api_get "http://localhost:5600" "/buckets/" (.response 204 "No Content" .null) =
      .error (.apiError "HTTP 204 from /buckets/: No Content") :=
  ⟨⟨by norm_num, by norm_num⟩, rfl⟩

/-! Claims C6, C7, C8: entity projections -/

/-- Claim C6: the presence sensor is unknown exactly when the snapshot holds
no cached AFK event, on exactly when the cached AFK event's `data.status`
equals `"not-afk"`, and off in every other case. -/
theorem active_sensor_projection (d : Option ActivityWatchData) :
    active_is_on d =
      match d with
      | none => none
      | some x =>
        match x.afk_event with
        | none => none
        | some e => some (decide (e.data.status = some "not-afk")) := by
  cases d with
  | none => rfl
  | some x =>
    cases hx : x.afk_event with
    | none => simp [active_is_on, hx]
    | some e =>
      simp only [active_is_on, hx]
      congr 1
      rw [decide_eq_decide]
      cases e.data.status with
      | none => simp
      | some s => simp

/-- Claim C7: the category sensor is unknown exactly when no window event is
cached, on exactly when the configured category string case-insensitively
equals some entry (any entry) of the window event's category list, and off
when a window event exists but no entry matches (including an empty or
absent list). -/
theorem category_sensor_projection (c : String) (d : Option ActivityWatchData) :
    category_is_on c d =
      match d with
      | none => none
      | some x =>
        match x.window_event with
        | none => none
        | some ev =>
          some (decide (∃ entry ∈ ev.data.category.getD [],
                        pyLower entry = pyLower c)) := by
  cases d with
  | none => rfl
  | some x =>
    cases hx : x.window_event with
    | none => simp [category_is_on, hx]
    | some ev =>
      simp only [category_is_on, hx]
      congr 1
      simp only [List.contains, List.elem_eq_mem]
      rw [decide_eq_decide]
      simp [List.mem_map]

/-- Truncation toward zero (`Int.tdiv` of numerator by denominator, as in
Python `int()`) is the floor for nonnegative rationals and the ceiling for
negative ones. -/
theorem pyInt_eq_trunc (q : ℚ) : pyInt q = if 0 ≤ q then ⌊q⌋ else ⌈q⌉ := by
  unfold pyInt
  by_cases h : 0 ≤ q
  · rw [if_pos h, Rat.floor_def]
    exact Int.tdiv_eq_ediv (Rat.num_nonneg.mpr h) (by positivity)
  · rw [if_neg h]
    push_neg at h
    have h2 : (0 : ℚ) ≤ -q := by linarith
    have hfloor : (-q).num.tdiv (-q).den = ⌊-q⌋ := by
      rw [Rat.floor_def]
      exact Int.tdiv_eq_ediv (Rat.num_nonneg.mpr h2) (by positivity)
    rw [Rat.neg_num, Rat.neg_den, Int.neg_tdiv] at hfloor
    have hceil : ⌈q⌉ = -⌊-q⌋ := by rw [Int.floor_neg, neg_neg]
    rw [hceil, ← hfloor, neg_neg]

/-- Claim C8: for every cached window event, the current-activity value is
the first entry of its category list when present and non-empty, and the
literal `"Uncategorized"` otherwise; the `duration` attribute is the integer
truncation (floor for nonnegative, ceiling for negative — not rounding) of
the event's duration. -/
theorem current_activity_projection (ev : AWEvent) (afk : Option AWEvent) :
    current_activity_native_value (some ⟨some ev, afk⟩) =
      some (match ev.data.category with
            | some (c :: _) => c
            | _ => "Uncategorized") ∧
    (current_activity_extra_attributes (some ⟨some ev, afk⟩)).map
        CurrentActivityAttributes.duration =
      some (if 0 ≤ ev.duration then ⌊ev.duration⌋ else ⌈ev.duration⌉) := by
  constructor
  · cases hc : ev.data.category with
    | none => simp [current_activity_native_value, hc]
    | some l =>
      cases l with
      | nil => simp [current_activity_native_value, hc]
      | cons a t => simp [current_activity_native_value, hc]
  · simp [current_activity_extra_attributes, pyInt_eq_trunc]

/-! Claims C9, C10: coordinator tick invariants -/

/-- A tick never touches the discovered bucket ids, whether it succeeds or
fails. -/
theorem apply_tick_preserves_buckets (dev : String)
    (f : String → Except AWError (List AWEvent)) (s : CoordState) :
    (apply_tick dev f s).1.window_bucket = s.window_bucket ∧
    (apply_tick dev f s).1.afk_bucket = s.afk_bucket := by
  unfold apply_tick async_update_data
  cases hw : fetch_bucket_event f s.window_bucket with
  | error e => exact ⟨rfl, rfl⟩
  | ok wev =>
    cases ha : fetch_bucket_event f s.afk_bucket with
    | error e => exact ⟨rfl, rfl⟩
    | ok aev => exact ⟨rfl, rfl⟩

/-- Bucket ids survive any sequence of ticks. -/
theorem run_ticks_preserves_buckets (dev : String) (s : CoordState)
    (ticks : List (String → Except AWError (List AWEvent))) :
    (run_ticks dev s ticks).window_bucket = s.window_bucket ∧
    (run_ticks dev s ticks).afk_bucket = s.afk_bucket := by
  induction ticks generalizing s with
  | nil => exact ⟨rfl, rfl⟩
  | cons f fs ih =>
    have h := apply_tick_preserves_buckets dev f s
    have h2 := ih (apply_tick dev f s).1
    constructor
    · simp only [run_ticks]
      rw [h2.1, h.1]
    · simp only [run_ticks]
      rw [h2.2, h.2]

/-- Claim C9: once setup assigns the window and AFK bucket ids, each as the
first bucket whose type contains the respective substring in listing order,
no later update tick changes either id, whatever the ticks fetch (including
errors for a bucket that disappeared from the server). -/
theorem bucket_id_stability (dev : String) (buckets : List (String × BucketInfo))
    (s : CoordState) (w a : String) (wrest arest : List String)
    (hw : async_find_buckets buckets BUCKET_WINDOW = w :: wrest)
    (ha : async_find_buckets buckets BUCKET_AFK = a :: arest)
    (ticks : List (String → Except AWError (List AWEvent))) :
    (run_ticks dev (async_setup buckets s) ticks).window_bucket = some w ∧
    (run_ticks dev (async_setup buckets s) ticks).afk_bucket = some a := by
  have hsetup1 : (async_setup buckets s).window_bucket = some w := by
    simp only [async_setup, hw, ha]
  have hsetup2 : (async_setup buckets s).afk_bucket = some a := by
    simp only [async_setup, hw, ha]
  have h := run_ticks_preserves_buckets dev (async_setup buckets s) ticks
  exact ⟨h.1.trans hsetup1, h.2.trans hsetup2⟩

/-- Witness for C9: the spec's end-to-end bucket listing, followed by a tick
in which the server reports an error for every bucket. -/
theorem bucket_id_stability_witness :
    (run_ticks "Test-PC"
        (async_setup
          [("aw-watcher-window_h", ⟨some "aw-watcher-window"⟩),
           ("aw-watcher-afk_h", ⟨some "aw-watcher-afk"⟩)]
          ⟨none, none, none, none⟩)
        [fun _ => .error (.apiError "bucket gone")]).window_bucket =
      some "aw-watcher-window_h" ∧
    (run_ticks "Test-PC"
        (async_setup
          [("aw-watcher-window_h", ⟨some "aw-watcher-window"⟩),
           ("aw-watcher-afk_h", ⟨some "aw-watcher-afk"⟩)]
          ⟨none, none, none, none⟩)
        [fun _ => .error (.apiError "bucket gone")]).afk_bucket =
      some "aw-watcher-afk_h" :=
  bucket_id_stability "Test-PC"
    [("aw-watcher-window_h", ⟨some "aw-watcher-window"⟩),
     ("aw-watcher-afk_h", ⟨some "aw-watcher-afk"⟩)]
    ⟨none, none, none, none⟩ "aw-watcher-window_h" "aw-watcher-afk_h" [] []
    (by decide) (by decide) [fun _ => .error (.apiError "bucket gone")]

/-- Claim C10: a tick whose window fetch (first conjunct) or AFK fetch
(second conjunct, window half already fetched) raises a connection or API
error surfaces the retryable `UpdateFailed` message, fires no notification,
and leaves the coordinator state — cached snapshot and baseline included —
exactly as it was. -/
theorem failed_tick_atomicity (dev : String)
    (f : String → Except AWError (List AWEvent)) (s : CoordState) (b : String)
    (err : AWError) :
    (s.window_bucket = some b → f b = .error err →
      apply_tick dev f s = (s, [], some (update_failed_message err))) ∧
    (∀ wev, fetch_bucket_event f s.window_bucket = .ok wev →
      s.afk_bucket = some b → f b = .error err →
      apply_tick dev f s = (s, [], some (update_failed_message err))) := by
  constructor
  · intro hb hf
    unfold apply_tick async_update_data
    rw [hb]
    simp [fetch_bucket_event, hf]
  · intro wev hw hb hf
    unfold apply_tick async_update_data
    rw [hw, hb]
    simp [fetch_bucket_event, hf]

/-- Witness for C10: a connection failure during the window fetch leaves a
tracking-state coordinator untouched and surfaces the retryable message. -/
theorem failed_tick_atomicity_witness :
    apply_tick "Test-PC" (fun _ => .error (.connectionError "Connection refused"))
        ⟨some "aw-watcher-window_h", none, some "Code", none⟩ =
      (⟨some "aw-watcher-window_h", none, some "Code", none⟩, [],
       some "Connection error: Connection refused") :=
  (failed_tick_atomicity "Test-PC"
      (fun _ => .error (.connectionError "Connection refused"))
      ⟨some "aw-watcher-window_h", none, some "Code", none⟩
      "aw-watcher-window_h" (.connectionError "Connection refused")).1 rfl rfl

/-! Claims C1, C2: window-switch edge detection -/

/-- First poll: the baseline is recorded and nothing is fired. -/
theorem fire_first_poll (dev : String) (e : AWEvent) :
    fire_window_switch_event dev none (some e) = (e.data.app, []) := rfl

/-- Tracking state, app changed: the payload is fired and the baseline
updated (possibly to `none`). -/
theorem fire_change (dev a : String) (e : AWEvent) (h : e.data.app ≠ some a) :
    fire_window_switch_event dev (some a) (some e) =
      (e.data.app,
       [⟨dev, "window_switch", e.data.app, e.data.title.getD "",
         e.data.url.getD ""⟩]) := by
  unfold fire_window_switch_event
  simp [h]

/-- Tracking state, same app: nothing is fired and the baseline is kept. -/
theorem fire_no_change (dev a : String) (e : AWEvent) (h : e.data.app = some a) :
    fire_window_switch_event dev (some a) (some e) = (some a, []) := by
  unfold fire_window_switch_event
  simp [h]

/-- After processing a window event the stored baseline always equals that
event's `app` value, whatever it was before. -/
theorem fire_sets_baseline (dev : String) (prev : Option String) (e : AWEvent) :
    (fire_window_switch_event dev prev (some e)).1 = e.data.app := by
  unfold fire_window_switch_event
  cases prev with
  | none => rfl
  | some p =>
    by_cases h : e.data.app = some p
    · simp [h]
    · simp [h]

/-- Two window events with equal `app` values never fire on the second. -/
theorem fire_same_app_no_notifs (dev : String) (e1 e2 : AWEvent)
    (heq : e1.data.app = e2.data.app) :
    (fire_window_switch_event dev e1.data.app (some e2)).2 = [] := by
  rw [heq]
  unfold fire_window_switch_event
  cases h : e2.data.app with
  | none => rfl
  | some a => simp [h]

/-- A successful tick whose window fetch returns exactly one event: the
fired payloads and baseline come from the edge detector, and the window
bucket id is preserved. -/
theorem apply_tick_ok_proj (dev : String) (e : AWEvent) (s : CoordState)
    (b : String) (hb : s.window_bucket = some b) :
    (apply_tick dev (fun _ => .ok [e]) s).2.1 =
        (fire_window_switch_event dev s.previous_window_app (some e)).2 ∧
    (apply_tick dev (fun _ => .ok [e]) s).1.previous_window_app =
        (fire_window_switch_event dev s.previous_window_app (some e)).1 ∧
    (apply_tick dev (fun _ => .ok [e]) s).1.window_bucket = some b := by
  unfold apply_tick async_update_data
  rw [hb]
  cases hafk : s.afk_bucket with
  | none => exact ⟨rfl, rfl, rfl⟩
  | some ab => exact ⟨rfl, rfl, rfl⟩

/-- The second of two consecutive single-event ticks fires exactly what the
edge detector fires for the first event's app as baseline. -/
theorem second_tick_notifs (dev : String) (e1 e2 : AWEvent) (s : CoordState)
    (b : String) (hb : s.window_bucket = some b) :
    (apply_tick dev (fun _ => .ok [e2])
        (apply_tick dev (fun _ => .ok [e1]) s).1).2.1 =
      (fire_window_switch_event dev e1.data.app (some e2)).2 := by
  obtain ⟨-, hprev, hwb⟩ := apply_tick_ok_proj dev e1 s b hb
  obtain ⟨hn2, -, -⟩ := apply_tick_ok_proj dev e2 _ b hwb
  rw [hn2, hprev, fire_sets_baseline]

/-- Claim C1 (amended): from the uninitialized state, the first tick fires
nothing; a second tick whose window event has a different `app` value fires
exactly one payload carrying the second event's app, title, url, the device
identifier and the fixed `"window_switch"` tag, provided the first event's
`app` field is present; and any two consecutive ticks with equal `app`
values fire nothing on the second tick, whatever the other fields are. -/
theorem window_switch_edge_notification (dev b : String) (e1 e2 : AWEvent) :
    (apply_tick dev (fun _ => .ok [e1])
        (⟨some b, none, none, none⟩ : CoordState)).2.1 = [] ∧
    ((∃ a1, e1.data.app = some a1) → e1.data.app ≠ e2.data.app →
      (apply_tick dev (fun _ => .ok [e2])
          (apply_tick dev (fun _ => .ok [e1])
            (⟨some b, none, none, none⟩ : CoordState)).1).2.1 =
        [⟨dev, "window_switch", e2.data.app, e2.data.title.getD "",
          e2.data.url.getD ""⟩]) ∧
    (∀ s : CoordState, s.window_bucket = some b → e1.data.app = e2.data.app →
      (apply_tick dev (fun _ => .ok [e2])
          (apply_tick dev (fun _ => .ok [e1]) s).1).2.1 = []) := by
  refine ⟨?_, ?_, ?_⟩
  · have h := (apply_tick_ok_proj dev e1 (⟨some b, none, none, none⟩ : CoordState) b rfl).1
    rw [h]
    rfl
  · rintro ⟨a1, ha1⟩ hne
    have h2 : e2.data.app ≠ some a1 := fun h => hne (ha1.trans h.symm)
    rw [second_tick_notifs dev e1 e2 (⟨some b, none, none, none⟩ : CoordState) b rfl]
    rw [ha1, fire_change dev a1 e2 h2]
  · intro s hb heq
    rw [second_tick_notifs dev e1 e2 s b hb]
    exact fire_same_app_no_notifs dev e1 e2 heq

/-- A window event whose `data` mapping has no `app` key. -/
def e_noapp : AWEvent := ⟨⟨none, some "Editor", none, none, none⟩, 0, none⟩

/-- A window event for the app `"Code"`. -/
def e_code : AWEvent := ⟨⟨some "Code", some "main.py", none, none, none⟩, 0, none⟩

/-- A window event for the app `"Firefox"`. -/
def e_firefox : AWEvent :=
  ⟨⟨some "Firefox", some "Mozilla Firefox", some "https://example.org", none, none⟩,
   0, none⟩

/-- Witness for C1: Code then Firefox fires exactly the Firefox payload on
the second tick; Firefox twice fires nothing on the second tick. -/
theorem window_switch_edge_notification_witness :
    (apply_tick "Test-PC" (fun _ => .ok [e_firefox])
        (apply_tick "Test-PC" (fun _ => .ok [e_code])
          (⟨some "bkt", none, none, none⟩ : CoordState)).1).2.1 =
      [⟨"Test-PC", "window_switch", some "Firefox", "Mozilla Firefox",
        "https://example.org"⟩] ∧
    (apply_tick "Test-PC" (fun _ => .ok [e_firefox])
        (apply_tick "Test-PC" (fun _ => .ok [e_firefox])
          (⟨some "bkt", none, none, none⟩ : CoordState)).1).2.1 = [] :=
  ⟨(window_switch_edge_notification "Test-PC" "bkt" e_code e_firefox).2.1
      ⟨"Code", rfl⟩ (by decide),
   (window_switch_edge_notification "Test-PC" "bkt" e_firefox e_firefox).2.2
      (⟨some "bkt", none, none, none⟩ : CoordState) rfl rfl⟩

/-- Counterexample for C1: E1 without an `app` key (app value `None`) and E2
with app `"Firefox"` have different `app` values, yet the two consecutive
ticks from the uninitialized state emit zero notifications instead of
exactly one. -/
theorem window_switch_edge_notification_counterexample :
    e_noapp.data.app ≠ e_firefox.data.app ∧
    (apply_tick "Test-PC" (fun _ => .ok [e_noapp])
        (⟨some "bkt", none, none, none⟩ : CoordState)).2.1 = [] ∧
    (apply_tick "Test-PC" (fun _ => .ok [e_firefox])
        (apply_tick "Test-PC" (fun _ => .ok [e_noapp])
          (⟨some "bkt", none, none, none⟩ : CoordState)).1).2.1 = [] :=
  ⟨by decide, rfl, rfl⟩

/-- Claim C2 (amended): in tracking state with a non-`None` baseline, a tick
whose window event carries a different `app` value fires the change payload
and updates the baseline to the new value — including to `None` when the
`app` field is absent; with an equal `app` value nothing fires and the
baseline is kept; but when the stored baseline is `None` the coordinator
behaves as on a first poll: it records the new `app` value without firing. -/
theorem baseline_change_notification (dev p : String) (ev : AWEvent) :
    (ev.data.app ≠ some p →
      fire_window_switch_event dev (some p) (some ev) =
        (ev.data.app,
         [⟨dev, "window_switch", ev.data.app, ev.data.title.getD "",
           ev.data.url.getD ""⟩])) ∧
    (ev.data.app = some p →
      fire_window_switch_event dev (some p) (some ev) = (some p, [])) ∧
    fire_window_switch_event dev none (some ev) = (ev.data.app, []) :=
  ⟨fun h => fire_change dev p ev h, fun h => fire_no_change dev p ev h,
   fire_first_poll dev ev⟩

/-- Witness for C2: baseline `"Code"`, new app absent: the payload fires
with app `None` and the baseline becomes `None`; baseline `"Firefox"`, same
app: nothing fires. -/
theorem baseline_change_notification_witness :
    fire_window_switch_event "Test-PC" (some "Code") (some e_noapp) =
      (none, [⟨"Test-PC", "window_switch", none, "Editor", ""⟩]) ∧
    fire_window_switch_event "Test-PC" (some "Firefox") (some e_firefox) =
      (some "Firefox", []) :=
  ⟨(baseline_change_notification "Test-PC" "Code" e_noapp).1 (by decide),
   (baseline_change_notification "Test-PC" "Firefox" e_firefox).2.1 rfl⟩

/-- Counterexample for C2: a `None` baseline is reachable in tracking state
(Code, then an event without `app`), and on the next tick the app
`"Firefox"` differs from that baseline, yet no notification is emitted —
the baseline is updated silently instead. -/
theorem baseline_change_notification_counterexample :
    ((apply_tick "Test-PC" (fun _ => .ok [e_noapp])
        (apply_tick "Test-PC" (fun _ => .ok [e_code])
          (⟨some "bkt", none, none, none⟩ : CoordState)).1).1).previous_window_app =
      none ∧
    e_firefox.data.app ≠ none ∧
    (apply_tick "Test-PC" (fun _ => .ok [e_firefox])
        (apply_tick "Test-PC" (fun _ => .ok [e_noapp])
          (apply_tick "Test-PC" (fun _ => .ok [e_code])
            (⟨some "bkt", none, none, none⟩ : CoordState)).1).1).2.1 = [] ∧
    (apply_tick "Test-PC" (fun _ => .ok [e_firefox])
        (apply_tick "Test-PC" (fun _ => .ok [e_noapp])
          (apply_tick "Test-PC" (fun _ => .ok [e_code])
            (⟨some "bkt", none, none, none⟩ : CoordState)).1).1).1.previous_window_app =
      some "Firefox" :=
  ⟨rfl, by decide, rfl, rfl⟩

/-! Claims C3, C4: query_stats handler -/

/-- The `"data"` field of an encoded merged event. -/
theorem pyGet_data (e : MergedEvent) (d : JValue) :
    pyGet e.toJValue "data" d =
      .ok (.obj [("app", .str e.app),
                 ("$category", .arr (e.category.map JValue.str))]) := rfl

/-- The `"duration"` field of an encoded merged event. -/
theorem pyGet_duration (e : MergedEvent) (d : JValue) :
    pyGet e.toJValue "duration" d = .ok (.num e.duration) := rfl

/-- The `"app"` field of an encoded merged event's data object. -/
theorem pyGet_app (e : MergedEvent) (d : JValue) :
    pyGet (.obj [("app", .str e.app),
                 ("$category", .arr (e.category.map JValue.str))]) "app" d =
      .ok (.str e.app) := rfl

/-- The `"$category"` field of an encoded merged event's data object. -/
theorem pyGet_category (e : MergedEvent) (d : JValue) :
    pyGet (.obj [("app", .str e.app),
                 ("$category", .arr (e.category.map JValue.str))]) "$category" d =
      .ok (.arr (e.category.map JValue.str)) := rfl

/-- Lowering a list of JSON strings never raises and lowers each entry. -/
theorem lower_all_strs (cs : List String) :
    lower_all (cs.map JValue.str) = .ok (cs.map pyLower) := by
  induction cs with
  | nil => rfl
  | cons c cs ih => simp [lower_all, lowerStr, List.map_cons, ih]

/-- On an encoded merged event the filter guard never raises and decides
exactly as the spec-side `skipSpec`. -/
theorem should_skip_encoded (f : Option String) (e : MergedEvent) :
    should_skip f (.obj [("app", .str e.app),
                         ("$category", .arr (e.category.map JValue.str))]) =
      .ok (skipSpec f e) := by
  cases f with
  | none => rfl
  | some s =>
    by_cases hs : s = ""
    · simp [should_skip, skipSpec, hs]
    · simp [should_skip, skipSpec, hs, pyGet_category, lower_all_strs]

/-- Cons equation for the spec-side retained events. -/
theorem retained_events_cons (f : Option String) (e : MergedEvent)
    (es : List MergedEvent) :
    retained_events f (e :: es) =
      if skipSpec f e = true then retained_events f es
      else e :: retained_events f es := by
  cases f with
  | none => rfl
  | some s =>
    by_cases hs : s = ""
    · subst hs
      rfl
    · rw [show retained_events (some s) (e :: es) =
            List.filter (fun x => (x.category.map pyLower).contains (pyLower s))
              (e :: es) from by simp [retained_events, hs]]
      rw [show retained_events (some s) es =
            List.filter (fun x => (x.category.map pyLower).contains (pyLower s))
              es from by simp [retained_events, hs]]
      rw [show skipSpec (some s) e =
            !((e.category.map pyLower).contains (pyLower s)) from by
          simp [skipSpec, hs]]
      rw [List.filter_cons]
      cases hc : (e.category.map pyLower).contains (pyLower s) with
      | false => simp
      | true => simp

/-- The handler's loop on encoded merged events: no exception, the total is
the running total plus the retained durations, and the accumulated
`top_apps` extend in retained order. -/
theorem process_events_encoded (f : Option String) (es : List MergedEvent)
    (t : ℚ) (acc : List TopApp) :
    process_events f (es.map MergedEvent.toJValue) t acc =
      .ok (t + ((retained_events f es).map MergedEvent.duration).sum,
           acc ++ (retained_events f es).map
             (fun e => ⟨.str e.app, pyRound e.duration⟩)) := by
  induction es generalizing t acc with
  | nil =>
    cases f with
    | none => simp [process_events, retained_events]
    | some s =>
      by_cases hs : s = "" <;> simp [process_events, retained_events, hs]
  | cons e es ih =>
    cases hsk : skipSpec f e with
    | true =>
      simp only [List.map_cons, process_events, pyGet_data, pyGet_app,
                 pyGet_duration, should_skip_encoded, hsk, retained_events_cons,
                 if_true]
      exact ih t acc
    | false =>
      simp only [List.map_cons, process_events, pyGet_data, pyGet_app,
                 pyGet_duration, should_skip_encoded, hsk, retained_events_cons,
                 JValue.asNum]
      rw [ih]
      simp [add_assoc]

/-- Claim C4: for a well-formed response whose first element is the list of
merged events, the handler returns no error, `total_seconds` is the rounded
sum of the retained events' durations, and `top_apps` is the retained events
in server order, truncated to the first 10 and reduced to name and rounded
seconds; with a set (non-empty) filter exactly the events without a
case-insensitive category match are dropped from both computations. -/
theorem query_stats_aggregation (device_id : String) (more : List JValue)
    (es : List MergedEvent) (category_filter : Option String) :
    async_handle_query_stats true device_id
        (.ok (.arr (.arr (es.map MergedEvent.toJValue) :: more))) category_filter =
      .ok ⟨none,
           pyRound ((retained_events category_filter es).map MergedEvent.duration).sum,
           ((retained_events category_filter es).map
               (fun e => ⟨.str e.app, pyRound e.duration⟩)).take 10⟩ := by
  simp only [async_handle_query_stats]
  rw [process_events_encoded]
  simp

/-- Claim C3 (amended): the handler returns the structured zero result on
every failure path it handles itself — unknown device and query error (with
an `error` string), and any response that is not a non-empty list (without
an `error` string). Malformed elements inside the response's first list can
still raise, as the counterexample shows. -/
theorem query_stats_failure_paths (device_id msg : String)
    (qres : Except String JValue) (category_filter : Option String) (v : JValue)
    (hv : isNonemptyList v = false) :
    async_handle_query_stats false device_id qres category_filter =
      .ok ⟨some ("Device " ++ device_id ++ " not found"), 0, []⟩ ∧
    async_handle_query_stats true device_id (.error msg) category_filter =
      .ok ⟨some msg, 0, []⟩ ∧
    async_handle_query_stats true device_id (.ok v) category_filter =
      .ok ⟨none, 0, []⟩ := by
  refine ⟨rfl, rfl, ?_⟩
  cases v with
  | arr xs =>
    cases xs with
    | nil => rfl
    | cons x xs => simp [isNonemptyList] at hv
  | null => rfl
  | bool b => rfl
  | num n => rfl
  | str s => rfl
  | obj fields => rfl

/-- Witness for C3 (amended): unknown device, a query error, and a `null`
response each yield the structured zero result. -/
theorem query_stats_failure_paths_witness :
    async_handle_query_stats false "Laptop" (.ok .null) none =
      .ok ⟨some "Device Laptop not found", 0, []⟩ ∧
    async_handle_query_stats true "Laptop"
        (.error "HTTP 500 from /query/: boom") none =
      .ok ⟨some "HTTP 500 from /query/: boom", 0, []⟩ ∧
    async_handle_query_stats true "Laptop" (.ok .null) none =
      .ok ⟨none, 0, []⟩ :=
  query_stats_failure_paths "Laptop" "HTTP 500 from /query/: boom" (.ok .null)
    none .null rfl

/-- Counterexample for C3: a response whose first element is a list holding
a bare string makes the handler raise `AttributeError` (Python evaluates
`event.get` on a non-dict), refuting "never raises an exception". -/
theorem query_stats_raises_counterexample :
    async_handle_query_stats true "Test-PC" (.ok (.arr [.arr [.str "oops"]])) none =
      .error .attributeError := rfl
